import Mathlib

set_option autoImplicit false

/-!
Verification of the decorator-driven Hono backend template.

This file shallowly embeds the route-compilation subsystem of the
repository — the guard evaluator (`src/middleware/guard.middleware.ts`),
the route builder and parameter resolver (`src/core/route-builder.ts`),
and the dependency-injection container (the enhanced container shipped
with the repository, plus the minimal one at `src/core/container.ts`) —
and proves or refutes the specification's claims about them.

Conventions of the embedding:
* JavaScript exceptions become `Except` errors carrying the thrown
  `Error`'s message string.
* The mutable Hono `Context` becomes an explicit `Ctx` value that is
  threaded through guard evaluation (guards may set the `user` key).
* The external `jsonwebtoken.verify` collaborator is a parameter of the
  context (`Ctx.verify`), returning one of the outcomes the middleware
  distinguishes (valid payload / expired / malformed / other failure).
-/

namespace Hono

/-! ## Guard middleware (`src/middleware/guard.middleware.ts`) -/

/-- `AuthPayload` from `src/middleware/auth.middleware.ts`: the fields the
guard middleware reads. Optional fields are `Option`s. -/
structure AuthPayload where
  role : Option String
  roles : Option (List String)
  permissions : Option (List String)
  deriving DecidableEq, Repr

/-- Outcome of `jwt.verify(token, secret)`: a valid payload, or one of the
error classes the middleware distinguishes (`TokenExpiredError`,
`JsonWebTokenError`, anything else). -/
inductive JwtOutcome where
  | valid (payload : AuthPayload)
  | expired
  | malformed
  | otherFailure
  deriving Repr

/-- The slice of the Hono `Context` the guard middleware touches:
the `user` context key, the `authorization` header, and the external
token-verification collaborator. -/
structure Ctx where
  user : Option AuthPayload
  authHeader : Option String
  verify : String → JwtOutcome

/-- `GuardMetadata.options` from `src/decorators/metadata.ts`. -/
structure GuardOptions where
  roles : Option (List String)
  permissions : Option (List String)
  requireAll : Option Bool
  deriving DecidableEq, Repr

/-- `GuardMetadata` from `src/decorators/metadata.ts`. -/
structure GuardMetadata where
  name : String
  options : Option GuardOptions
  deriving DecidableEq, Repr

/-- Does `pat` occur at the start of `l`? Helper for `strIncludes`. -/
def listStartsWith : List Char → List Char → Bool
  | [], _ => true
  | _ :: _, [] => false
  | p :: ps, c :: cs => p == c && listStartsWith ps cs

/-- Does `pat` occur anywhere in `l`? Helper for `strIncludes`. -/
def listIncludes (pat : List Char) : List Char → Bool
  | [] => listStartsWith pat []
  | c :: cs => listStartsWith pat (c :: cs) || listIncludes pat cs

/-- `String.prototype.includes`: `s` contains `pat` as a substring. -/
def strIncludes (s pat : String) : Bool :=
  listIncludes pat.toList s.toList

/-- `checkAuth` (`guard.middleware.ts` lines 57–90). Returns the updated
context as well, since a successful inline verification sets the `user`
context key. A thrown `Error` is an `Except.error` with its message. -/
def checkAuth (c : Ctx) : Except String (Bool × Ctx) :=
  match c.user with
  | some _ => .ok (true, c)
  | none =>
    let token : Option String :=
      match c.authHeader with
      | some h =>
        if listStartsWith ("Bearer ").toList h.toList then
          some (String.mk (h.toList.drop 7))
        else none
      | none => none
    match token with
    | none => .error "Unauthorized: No token provided"
    | some t =>
      match c.verify t with
      | .valid payload =>
        let payload :=
          match payload.role, payload.roles with
          | some r, none => { payload with roles := some [r] }
          | _, _ => payload
        .ok (true, { c with user := some payload })
      | .expired => .error "Unauthorized: Token has expired"
      | .malformed => .error "Unauthorized: Invalid token"
      | .otherFailure => .error "Unauthorized: Authentication failed"

/-- `checkRole` (`guard.middleware.ts` lines 96–130). The `requireAll`
argument is the (possibly absent) value from the guard options; the
source's default parameter value is `false`. -/
def checkRole (c : Ctx) (requiredRoles : Option (List String))
    (requireAllArg : Option Bool) : Except String Bool :=
  let requireAll := requireAllArg.getD false
  match requiredRoles with
  | none => .ok true
  | some rs =>
    if rs.isEmpty then .ok true
    else
      match c.user with
      | none => .error "Unauthorized: User not found"
      | some user =>
        let userRoles :=
          match user.roles with
          | some l => l
          | none => match user.role with
            | some r => [r]
            | none => []
        let hasRequiredRoles :=
          if requireAll then rs.all (fun r => userRoles.contains r)
          else rs.any (fun r => userRoles.contains r)
        if hasRequiredRoles then .ok true
        else
          .error
            (if requireAll then
              "Forbidden: Requires all roles: " ++ String.intercalate ", " rs
            else
              "Forbidden: Requires one of: " ++ String.intercalate ", " rs)

/-- `checkPermission` (`guard.middleware.ts` lines 136–178). The source's
default parameter value for `requireAll` is `true`. -/
def checkPermission (c : Ctx) (requiredPermissions : Option (List String))
    (requireAllArg : Option Bool) : Except String Bool :=
  let requireAll := requireAllArg.getD true
  match requiredPermissions with
  | none => .ok true
  | some ps =>
    if ps.isEmpty then .ok true
    else
      match c.user with
      | none => .error "Unauthorized: User not found"
      | some user =>
        let userPermissions := user.permissions.getD []
        let hasRequiredPermissions :=
          if requireAll then ps.all (fun p => userPermissions.contains p)
          else ps.any (fun p => userPermissions.contains p)
        if hasRequiredPermissions then .ok true
        else
          let missing :=
            if requireAll then ps.filter (fun p => !userPermissions.contains p)
            else []
          .error
            (if requireAll then
              "Forbidden: Missing permissions: " ++ String.intercalate ", " missing
            else
              "Forbidden: Requires one of: " ++ String.intercalate ", " ps)

/-- `checkGuard` (`guard.middleware.ts` lines 29–52): dispatch on the guard
name; an unknown name only logs a warning and passes. -/
def checkGuard (c : Ctx) (guard : GuardMetadata) : Except String (Bool × Ctx) :=
  if guard.name = "AuthGuard" then
    checkAuth c
  else if guard.name = "RoleGuard" then
    (checkRole c (guard.options.bind (fun o => o.roles))
      (guard.options.bind (fun o => o.requireAll))).map (fun b => (b, c))
  else if guard.name = "PermissionGuard" then
    (checkPermission c (guard.options.bind (fun o => o.permissions))
      (guard.options.bind (fun o => o.requireAll))).map (fun b => (b, c))
  else
    .ok (true, c)

/-- `executeGuards` (`guard.middleware.ts` lines 11–24): evaluate guards in
order, stopping at the first one that returns `false` or throws. -/
def executeGuards (c : Ctx) : List GuardMetadata → Except String Bool
  | [] => .ok true
  | g :: gs =>
    match checkGuard c g with
    | .error e => .error e
    | .ok (false, _) => .ok false
    | .ok (true, c2) => executeGuards c2 gs

/-- Number of `checkGuard` invocations `executeGuards` performs: the guard
that fails is counted, guards after it are not reached. -/
def executeGuardsCount (c : Ctx) : List GuardMetadata → Nat
  | [] => 0
  | g :: gs =>
    match checkGuard c g with
    | .error _ => 1
    | .ok (false, _) => 1
    | .ok (true, c2) => 1 + executeGuardsCount c2 gs

/-- Running a list of guards that all pass, returning the context after
their side effects; `none` if some guard fails. Specification-side notion
used to phrase "the first `i` guards pass". -/
def runPrefix (c : Ctx) : List GuardMetadata → Option Ctx
  | [] => some c
  | g :: gs =>
    match checkGuard c g with
    | .ok (true, c2) => runPrefix c2 gs
    | _ => none

/-- A guard fails in context `c` when `checkGuard` returns `false` or
throws. -/
def guardFails (c : Ctx) (g : GuardMetadata) : Prop :=
  (∃ c2, checkGuard c g = .ok (false, c2)) ∨ (∃ e, checkGuard c g = .error e)

/-! ## Error translation (`src/core/route-builder.ts`, `registerRoute`) -/

/-- JSON values, for the response bodies `c.json(...)` receives. -/
inductive Json where
  | null
  | str (s : String)
  | num (n : Int)
  | bool (b : Bool)
  | arr (xs : List Json)
  | obj (fields : List (String × Json))

/-- The `{ status: "error", error: { code, message } }` body shape built at
`route-builder.ts` lines 171–180, 187–196 and 200–209. -/
def errBody (code message : String) : Json :=
  .obj [("status", .str "error"),
        ("error", .obj [("code", .str code), ("message", .str message)])]

/-- What a middleware in the chain can do with the request: answer with an
HTTP response, call `next()`, or re-throw to the outer (global) handler. -/
inductive MwOutcome where
  | response (status : Nat) (body : Json)
  | proceed
  | rethrow (message : String)

/-- The `catch` block of the per-route guard middleware
(`route-builder.ts` lines 184–214), applied to the message of the thrown
`Error`: `Unauthorized` substring → 401 `UNAUTHORIZED`, else `Forbidden`
substring → 403 `FORBIDDEN`, else re-thrown. -/
def guardCatch (m : String) : MwOutcome :=
  if strIncludes m "Unauthorized" then .response 401 (errBody "UNAUTHORIZED" m)
  else if strIncludes m "Forbidden" then .response 403 (errBody "FORBIDDEN" m)
  else .rethrow m

/-- The guard middleware body (`route-builder.ts` lines 166–215) as a
function of the outcome of `executeGuards`: `true` → `next()`, `false` →
403 "Access denied", a throw → the `catch` translation. -/
def guardMiddleware (r : Except String Bool) : MwOutcome :=
  match r with
  | .ok true => .proceed
  | .ok false => .response 403 (errBody "FORBIDDEN" "Access denied")
  | .error m => guardCatch m

/-- What the final handler wrapper can catch: a `ZodError` carrying its
structured `errors` list, or any other thrown `Error` (by message). -/
inductive HandlerThrown where
  | zod (issues : List Json)
  | other (message : String)

/-- The `catch` block of the handler wrapper (`route-builder.ts` lines
249–270): `ZodError` → 400 `VALIDATION_ERROR` with details, anything else
re-thrown to the global error handler. -/
def handlerCatch : HandlerThrown → MwOutcome
  | .zod issues =>
    .response 400
      (.obj [("status", .str "error"),
             ("error", .obj [("code", .str "VALIDATION_ERROR"),
                             ("message", .str "Validation failed"),
                             ("details", .arr issues)])])
  | .other m => .rethrow m

/-- Extract `error.code` from a response body of the shape produced by
`errBody` / the validation handler. -/
def bodyCode : Json → Option String
  | .obj fields =>
    match fields.lookup "error" with
    | some (.obj efields) =>
      match efields.lookup "code" with
      | some (.str c) => some c
      | _ => none
    | _ => none
  | _ => none

/-! ## Parameter resolver (`src/core/route-builder.ts`, `resolveParameters`,
lines 277–351) -/

/-- JavaScript values a resolved handler argument can take. -/
inductive Value where
  | undefined
  | str (s : String)
  | strMap (entries : List (String × String))
  | json (j : Json)
  | userVal (u : AuthPayload)
  | reqVal
  | resVal

/-- Errors `resolveParameters` can throw: a `ZodError` from
`schema.parseAsync`, or a body-parse failure from `c.req.json()`. -/
inductive ResolveErr where
  | zod (issues : List Json)
  | jsonParse (message : String)

/-- `ParamMetadata.type` from `src/decorators/metadata.ts`. -/
inductive ParamType where
  | body
  | param
  | query
  | headers
  | user
  | req
  | res
  | next
  deriving DecidableEq, Repr

/-- `ParamMetadata` from `src/decorators/metadata.ts`; the Zod schema is
modelled as a function from the raw value to either the parsed value or
the `ZodError`'s issue list. -/
structure ParamMeta where
  type : ParamType
  index : Nat
  name : Option String
  schema : Option (Value → Except (List Json) Value)

/-- The slice of the Hono `Context` the parameter resolver reads. The
body is the outcome of `await c.req.json()`, which rejects on malformed
JSON. -/
structure ReqCtx where
  bodyJson : Except String Value
  pathParams : List (String × String)
  queryParams : List (String × String)
  headers : List (String × String)
  user : Option AuthPayload

/-- `c.req.param(name)` / `c.req.header(name)`: a single capture, or the
JavaScript `undefined` when absent. -/
def lookupCapture (entries : List (String × String)) (n : String) : Value :=
  match entries.lookup n with
  | some s => .str s
  | none => .undefined

/-- One iteration of the `switch` in `resolveParameters` (lines 291–345):
the raw extraction and optional schema validation for one descriptor. -/
def resolveValue (c : ReqCtx) (p : ParamMeta) : Except ResolveErr Value :=
  match p.type with
  | .body =>
    match c.bodyJson with
    | .error e => .error (.jsonParse e)
    | .ok body =>
      match p.schema with
      | some f => (f body).mapError .zod
      | none => .ok body
  | .param =>
    let raw :=
      match p.name with
      | some n => lookupCapture c.pathParams n
      | none => .strMap c.pathParams
    match p.schema, p.name with
    | some f, some _ => (f raw).mapError .zod
    | _, _ => .ok raw
  | .query =>
    let q := Value.strMap c.queryParams
    match p.schema with
    | some f => (f q).mapError .zod
    | none => .ok q
  | .headers =>
    match p.name with
    | some n => .ok (lookupCapture c.headers n)
    | none => .ok (.strMap c.headers)
  | .user =>
    match c.user with
    | some u => .ok (.userVal u)
    | none => .ok .undefined
  | .req => .ok .reqVal
  | .res => .ok .resVal
  | .next => .ok .undefined

/-- Length of the argument array after the pre-fill loop: JavaScript array
assignment at index `i` grows the array to length `i + 1`. -/
def argsLength (params : List ParamMeta) : Nat :=
  params.foldl (fun m p => max m (p.index + 1)) 0

/-- The `for (const param of params)` loop of `resolveParameters`:
resolve each descriptor into its slot, stopping at the first throw. -/
def resolveLoop (c : ReqCtx) : List ParamMeta → List Value →
    Except ResolveErr (List Value)
  | [], args => .ok args
  | p :: ps, args =>
    match resolveValue c p with
    | .error e => .error e
    | .ok v => resolveLoop c ps (args.set p.index v)

/-- `resolveParameters` (lines 277–351): sort descriptors by index (the
in-place `sort` means the resolution loop also runs in sorted order, and
JavaScript `sort` is stable), pre-fill the array with `undefined` up to
the largest assigned index, then run the resolution loop. -/
def resolveParameters (params : List ParamMeta) (c : ReqCtx) :
    Except ResolveErr (List Value) :=
  resolveLoop c (List.insertionSort (fun a b => a.index ≤ b.index) params)
    (List.replicate (argsLength params) Value.undefined)

/-! ## Route builder (`src/core/route-builder.ts`, `HonoRouteBuilder`) -/

/-- The platform argument of `HonoRouteBuilder.build`. -/
inductive Platform where
  | mobile
  | web
  deriving DecidableEq, Repr

/-- `RouteMetadata.platform`: the route decorators
(`src/decorators/controller.ts`) always fill it, defaulting to `all`. -/
inductive RoutePlatform where
  | mobile
  | web
  | all
  deriving DecidableEq, Repr

/-- Embed a `build` platform argument into the route-platform type, for
the `route.platform === platform` comparison. -/
def Platform.toRoute : Platform → RoutePlatform
  | .mobile => .mobile
  | .web => .web

/-- `RouteMetadata` from `src/decorators/metadata.ts` (method kept as its
string, e.g. "get"). -/
structure RouteMeta where
  method : String
  path : String
  handlerName : String
  platform : RoutePlatform
  isPrivate : Bool
  deriving DecidableEq, Repr

/-- The fields of `RateLimitMetadata` the middleware chain construction
depends on. -/
structure RateLimitMeta where
  max : Nat
  windowMs : Nat
  deriving DecidableEq, Repr

/-- The per-handler reflection metadata `registerRoute` reads for one
`handlerName`: the `isPublic` flag, rate-limit options, method-level
middlewares (kept as opaque names) and guards. -/
structure HandlerMeta where
  isPublic : Bool
  rateLimit : Option RateLimitMeta
  methodMws : List String
  guards : List GuardMetadata
  params : List ParamMeta

/-- A controller class as `build` sees it through reflection: controller
metadata and route list (each absent when the class was never decorated),
class-level middlewares, and per-handler metadata. -/
structure ControllerClass where
  basePath : Option String
  routes : Option (List RouteMeta)
  classMws : List String
  handlers : String → HandlerMeta

/-- One element of the middleware chain passed to `app[method](...)`. -/
inductive ChainItem where
  | rlFlagSetter
  | classMw (name : String)
  | methodMw (name : String)
  | rateLimiter (meta : RateLimitMeta)
  | guardMw (guards : List GuardMetadata)
  | handler (handlerName : String)
  deriving DecidableEq, Repr

/-- One registration performed on the Hono app. -/
structure Registration where
  method : String
  path : String
  route : RouteMeta
  chain : List ChainItem

/-- `registerRoute` (`route-builder.ts` lines 82–273): assemble the
middleware chain — rate-limit flag setter, class middlewares, method
middlewares (both emptied when the handler is `@Public`), the rate
limiter, the guard middleware (only when guards exist) — and register it
with the final handler under `basePath + path`. -/
def registerRoute (cls : ControllerClass) (basePath : String)
    (route : RouteMeta) : Registration :=
  let h := cls.handlers route.handlerName
  let flagMw : List ChainItem :=
    if h.rateLimit.isSome then [.rlFlagSetter] else []
  let classMiddlewares : List ChainItem :=
    if h.isPublic then [] else cls.classMws.map .classMw
  let methodMiddlewares : List ChainItem :=
    if h.isPublic then [] else h.methodMws.map .methodMw
  let rateLimitMw : List ChainItem :=
    match h.rateLimit with
    | some m => [.rateLimiter m]
    | none => []
  let guardMws : List ChainItem :=
    if h.guards.isEmpty then [] else [.guardMw h.guards]
  { method := route.method
    path := basePath ++ route.path
    route := route
    chain := flagMw ++ classMiddlewares ++ methodMiddlewares ++ rateLimitMw
      ++ guardMws ++ [.handler route.handlerName] }

/-- `HonoRouteBuilder.build` (`route-builder.ts` lines 35–78): return no
registrations when controller metadata or routes are absent, otherwise
filter routes by platform and register each survivor. -/
def build (cls : ControllerClass) (platform : Option Platform) :
    List Registration :=
  match cls.basePath, cls.routes with
  | some basePath, some routes =>
    let platformRoutes := routes.filter (fun r =>
      match platform with
      | none => true
      | some p => r.platform = .all ∨ r.platform = p.toRoute)
    platformRoutes.map (registerRoute cls basePath)
  | _, _ => []

end Hono

/-! ## Dependency-injection containers

The repository ships two `Container` implementations.  `DI` embeds the
documented, enhanced container (resolution stack, factory registry,
`CircularDependencyError` / `DependencyResolutionError`), whose `resolve`
follows: stack check → singleton cache → factory → constructor injection.
`DISimple` embeds the minimal container at `src/core/container.ts`, whose
`resolve` is: singleton cache → recursive constructor injection, with no
cycle detection.

Instances are modelled as construction trees (`Obj.mk name args`), class
constructors by their name, `design:paramtypes` metadata and the
`singleton` metadata mark by functions of the class name, and recursion
is made total with explicit fuel (`none` = the computation would still be
running / the JS call stack would overflow). -/

namespace DI

/-- A constructed instance: which class, built from which resolved
dependencies. A factory's product is a leaf tagged with the token name. -/
inductive Obj where
  | mk (className : String) (args : List Obj)

/-- The errors the enhanced container throws. -/
inductive DIError where
  | circular (chain : List String)
  | depResolution (token : String) (message : String)
  deriving DecidableEq, Repr

/-- `error.message`, as the wrapping code reads it:
`CircularDependencyError` sets `"Circular dependency detected: " +
chain.join(' -> ')`, `DependencyResolutionError` passes its message
through. -/
def DIError.message : DIError → String
  | .circular chain => "Circular dependency detected: " ++ String.intercalate " -> " chain
  | .depResolution _ m => m

/-- Class-level reflection metadata the container reads:
`design:paramtypes` (dependencies, by class name, `undefined` entries
already filtered out) and the `singleton` mark. -/
structure DIEnv where
  paramtypes : String → List String
  singletonMark : String → Bool

/-- The container's registration state: the singleton cache and the
factory registry (a factory modelled by the instance it produces). -/
structure DIState where
  singletons : List (String × Obj)
  factories : List (String × Obj)

/-- Add to the singleton cache (`Map.prototype.set`). -/
def DIState.cache (st : DIState) (name : String) (o : Obj) : DIState :=
  { st with singletons := (name, o) :: st.singletons }

mutual

/-- `Container.resolve` of the enhanced container (stack check, singleton
cache, factory, constructor injection; the resolution stack is passed
down the recursion, matching the push/pop discipline of the source).
`none` means the fuel ran out; fuel only bounds the recursion depth the
model is willing to simulate, one unit per nested call. -/
def resolve (env : DIEnv) (fuel : Nat) (st : DIState) (stack : List String)
    (target : String) : Option (Except DIError (Obj × DIState)) :=
  match fuel with
  | 0 => none
  | fuel' + 1 =>
    if stack.contains target then
      some (.error (.circular (stack ++ [target])))
    else
      match st.singletons.lookup target with
      | some o => some (.ok (o, st))
      | none =>
        match st.factories.lookup target with
        | some o =>
          let st' := if env.singletonMark target then st.cache target o else st
          some (.ok (o, st'))
        | none =>
          match resolveDeps env fuel' st (stack ++ [target]) target 0
              (env.paramtypes target) with
          | none => none
          | some (.error e) => some (.error e)
          | some (.ok (args, st')) =>
            let instObj := Obj.mk target args
            let st'' :=
              if env.singletonMark target then st'.cache target instObj else st'
            some (.ok (instObj, st''))
termination_by structural fuel

/-- The dependency loop of `resolveViaConstructor`: resolve each
`paramtypes` entry in order, wrapping any failure — including a
`CircularDependencyError` — in a `DependencyResolutionError` naming the
dependency index and the owning class. -/
def resolveDeps (env : DIEnv) (fuel : Nat) (st : DIState)
    (stack : List String) (owner : String) (idx : Nat) (deps : List String) :
    Option (Except DIError (List Obj × DIState)) :=
  match fuel with
  | 0 => none
  | fuel' + 1 =>
    match deps with
    | [] => some (.ok ([], st))
    | d :: ds =>
      match resolve env fuel' st stack d with
      | none => none
      | some (.error e) =>
        some (.error (.depResolution d
          ("Failed to resolve dependency at index " ++ toString idx ++ " for "
            ++ owner ++ ": " ++ e.message)))
      | some (.ok (o, st')) =>
        match resolveDeps env fuel' st' stack owner (idx + 1) ds with
        | none => none
        | some (.error e) => some (.error e)
        | some (.ok (os, st'')) => some (.ok (o :: os, st''))
termination_by structural fuel

end

end DI

namespace DISimple

mutual

/-- `Container.resolve` of the minimal container at
`src/core/container.ts` (lines 33–55): singleton cache, then recursive
constructor injection — no resolution stack, no factory consultation, no
error type. `none` means the fuel ran out (the JS original would still be
recursing). -/
def resolve (env : DI.DIEnv) (fuel : Nat) (st : DI.DIState)
    (target : String) : Option (DI.Obj × DI.DIState) :=
  match fuel with
  | 0 => none
  | fuel' + 1 =>
    match st.singletons.lookup target with
    | some o => some (o, st)
    | none =>
      match resolveDeps env fuel' st (env.paramtypes target) with
      | none => none
      | some (args, st') =>
        let instObj := DI.Obj.mk target args
        let st'' :=
          if env.singletonMark target then st'.cache target instObj else st'
        some (instObj, st'')
termination_by structural fuel

/-- The `tokens.map((token) => this.resolve(token))` loop. -/
def resolveDeps (env : DI.DIEnv) (fuel : Nat) (st : DI.DIState)
    (deps : List String) : Option (List DI.Obj × DI.DIState) :=
  match fuel with
  | 0 => none
  | fuel' + 1 =>
    match deps with
    | [] => some ([], st)
    | d :: ds =>
      match resolve env fuel' st d with
      | none => none
      | some (o, st') =>
        match resolveDeps env fuel' st' ds with
        | none => none
        | some (os, st'') => some (o :: os, st'')
termination_by structural fuel

end

end DISimple

/-! ## Concrete fixtures used by the witnesses and counterexamples -/

namespace Fixtures

open Hono

/-- A verifier that always reports a generic verification failure. -/
def verifyFail : String → JwtOutcome := fun _ => .otherFailure

/-- Context with no authenticated user and no authorization header. -/
def ctxAnon : Ctx := ⟨none, none, verifyFail⟩

/-- A user holding only the `users:read` permission. -/
def userRead : AuthPayload := ⟨none, none, some ["users:read"]⟩

/-- Context with `userRead` authenticated. -/
def ctxUserRead : Ctx := ⟨some userRead, none, verifyFail⟩

/-- Context presenting a bearer token that verifies as expired. -/
def ctxExpired : Ctx := ⟨none, some "Bearer t", fun _ => .expired⟩

/-- Context presenting a bearer token that verifies as malformed. -/
def ctxMalformed : Ctx := ⟨none, some "Bearer t", fun _ => .malformed⟩

/-- An `@UseGuards(AuthGuard)` descriptor. -/
def authGuardMeta : GuardMetadata := ⟨"AuthGuard", none⟩

/-- A `RoleGuard` requiring the `admin` role. -/
def roleAdminMeta : GuardMetadata :=
  ⟨"RoleGuard", some ⟨some ["admin"], none, none⟩⟩

/-- A `PermissionGuard` requiring both user permissions, with no explicit
`requireAll`. -/
def permBothMeta : GuardMetadata :=
  ⟨"PermissionGuard", some ⟨none, some ["users:read", "users:write"], none⟩⟩

/-- A guard descriptor with a name the evaluator does not recognise. -/
def mysteryGuardMeta : GuardMetadata := ⟨"TenantGuard", none⟩

end Fixtures

open Hono

/-- C3: `executeGuards` evaluates the guards strictly in declaration order
and stops at the first failing guard: when the guards before position `i`
all pass and guard `i` fails (returns `false` or throws), exactly `i + 1`
guards are checked — the guards after position `i` are never evaluated,
so the result does not depend on them — and when every guard passes the
evaluation returns `true`. -/
theorem executeGuards_sequential_short_circuit :
    (∀ (c c' : Ctx) (gs : List GuardMetadata),
      runPrefix c gs = some c' → executeGuards c gs = .ok true) ∧
    (∀ (c c2 : Ctx) (pre : List GuardMetadata) (g : GuardMetadata)
        (post post' : List GuardMetadata),
      runPrefix c pre = some c2 → guardFails c2 g →
        executeGuardsCount c (pre ++ g :: post) = pre.length + 1 ∧
        executeGuards c (pre ++ g :: post)
          = executeGuards c (pre ++ g :: post')) := by
  constructor
  · intro c c' gs
    induction gs generalizing c with
    | nil => intro _; rfl
    | cons g gs ih =>
      intro h
      simp only [runPrefix] at h
      cases hc : checkGuard c g with
      | error e => rw [hc] at h; simp at h
      | ok p =>
        obtain ⟨b, c3⟩ := p
        cases b with
        | false => rw [hc] at h; simp at h
        | true =>
          rw [hc] at h
          simp only [executeGuards, hc]
          exact ih c3 h
  · intro c c2 pre g post post' hpre hfail
    induction pre generalizing c with
    | nil =>
      simp only [runPrefix, Option.some.injEq] at hpre
      subst hpre
      rcases hfail with ⟨c3, hc⟩ | ⟨e, hc⟩ <;>
        exact ⟨by simp [executeGuardsCount, hc],
               by simp [executeGuards, hc]⟩
    | cons g0 pre ih =>
      simp only [runPrefix] at hpre
      cases hc0 : checkGuard c g0 with
      | error e => rw [hc0] at hpre; simp at hpre
      | ok p =>
        obtain ⟨b, c3⟩ := p
        cases b with
        | false => rw [hc0] at hpre; simp at hpre
        | true =>
          rw [hc0] at hpre
          obtain ⟨hcount, heq⟩ := ih c3 hpre
          refine ⟨?_, ?_⟩
          · have hstep : executeGuardsCount c ((g0 :: pre) ++ g :: post)
                = 1 + executeGuardsCount c3 (pre ++ g :: post) := by
              rw [List.cons_append]
              simp only [executeGuardsCount, hc0]
            rw [hstep, hcount, List.length_cons]
            omega
          · have h1 : executeGuards c ((g0 :: pre) ++ g :: post)
                = executeGuards c3 (pre ++ g :: post) := by
              rw [List.cons_append]
              simp only [executeGuards, hc0]
            have h2 : executeGuards c ((g0 :: pre) ++ g :: post')
                = executeGuards c3 (pre ++ g :: post') := by
              rw [List.cons_append]
              simp only [executeGuards, hc0]
            rw [h1, h2, heq]

/-- C3 witness: with an authenticated context, one passing guard, then a
failing `PermissionGuard`, then a trailing guard, exactly two guards are
checked and the trailing guard is irrelevant. -/
theorem executeGuards_sequential_short_circuit_witness :
    executeGuardsCount Fixtures.ctxUserRead
      ([Fixtures.mysteryGuardMeta] ++ Fixtures.permBothMeta
        :: [Fixtures.authGuardMeta]) = 2 ∧
    executeGuards Fixtures.ctxUserRead
      ([Fixtures.mysteryGuardMeta] ++ Fixtures.permBothMeta
        :: [Fixtures.authGuardMeta])
      = executeGuards Fixtures.ctxUserRead
          ([Fixtures.mysteryGuardMeta] ++ Fixtures.permBothMeta :: []) := by
  have h := executeGuards_sequential_short_circuit.2 Fixtures.ctxUserRead
    Fixtures.ctxUserRead [Fixtures.mysteryGuardMeta] Fixtures.permBothMeta
    [Fixtures.authGuardMeta] []
    (by rfl)
    (Or.inr ⟨"Forbidden: Missing permissions: users:write", by rfl⟩)
  exact ⟨h.1, h.2⟩

/-- C5: `checkPermission` treats an absent `requireAll` exactly like an
explicit `true` (so ANY semantics needs an explicit `false`), and a
`PermissionGuard` requiring `users:read` and `users:write` with no
explicit `requireAll` throws Forbidden for a user holding only
`users:read`. -/
theorem permissionGuard_defaults_to_requireAll :
    (∀ (c : Ctx) (req : Option (List String)) (ra : Option Bool),
      ra ≠ some false →
      checkPermission c req ra = checkPermission c req (some true)) ∧
    (∀ (c : Ctx) (u : AuthPayload),
      c.user = some u → u.permissions = some ["users:read"] →
      checkGuard c Fixtures.permBothMeta
        = .error "Forbidden: Missing permissions: users:write") := by
  constructor
  · intro c req ra h
    rcases ra with _ | b
    · rfl
    · cases b
      · exact absurd rfl h
      · rfl
  · intro c u hu hp
    simp [checkGuard, Fixtures.permBothMeta, checkPermission, hu, hp]
    rfl

/-- C5 witness: instantiating both conjuncts, at the `users:read`-only
user for the second. -/
theorem permissionGuard_defaults_to_requireAll_witness :
    checkPermission Fixtures.ctxAnon (some ["users:read"]) none
      = checkPermission Fixtures.ctxAnon (some ["users:read"]) (some true) ∧
    checkGuard Fixtures.ctxUserRead Fixtures.permBothMeta
      = .error "Forbidden: Missing permissions: users:write" :=
  ⟨permissionGuard_defaults_to_requireAll.1 Fixtures.ctxAnon
      (some ["users:read"]) none (by decide),
    permissionGuard_defaults_to_requireAll.2 Fixtures.ctxUserRead
      Fixtures.userRead rfl rfl⟩

/-- C6: a guard descriptor whose name is none of `AuthGuard`, `RoleGuard`,
`PermissionGuard` is a no-op that passes for every context (fail-open):
`checkGuard` returns `true` and leaves the context unchanged. -/
theorem unknown_guard_passes :
    ∀ (c : Ctx) (g : GuardMetadata),
      g.name ≠ "AuthGuard" → g.name ≠ "RoleGuard" →
      g.name ≠ "PermissionGuard" →
      checkGuard c g = .ok (true, c) := by
  intro c g h1 h2 h3
  simp [checkGuard, h1, h2, h3]

/-- C6 witness: an arbitrary unrecognised guard name passes. -/
theorem unknown_guard_passes_witness :
    checkGuard Fixtures.ctxAnon Fixtures.mysteryGuardMeta
      = .ok (true, Fixtures.ctxAnon) :=
  unknown_guard_passes Fixtures.ctxAnon Fixtures.mysteryGuardMeta
    (by decide) (by decide) (by decide)

/-- C10: with a non-empty required list and no authenticated user,
`checkRole` and `checkPermission` throw the Unauthorized error (which the
route wrapper maps to a 401 `UNAUTHORIZED` response, not a 403), and with
an absent or empty required list both guards pass for every context. -/
theorem role_permission_no_user_unauthorized_empty_passes :
    (∀ (c : Ctx) (rs : List String) (ra : Option Bool),
      rs ≠ [] → c.user = none →
      checkRole c (some rs) ra = .error "Unauthorized: User not found") ∧
    (∀ (c : Ctx) (ps : List String) (ra : Option Bool),
      ps ≠ [] → c.user = none →
      checkPermission c (some ps) ra = .error "Unauthorized: User not found") ∧
    guardCatch "Unauthorized: User not found"
      = .response 401 (errBody "UNAUTHORIZED" "Unauthorized: User not found") ∧
    (∀ (c : Ctx) (ra : Option Bool),
      checkRole c none ra = .ok true ∧ checkRole c (some []) ra = .ok true ∧
      checkPermission c none ra = .ok true ∧
      checkPermission c (some []) ra = .ok true) := by
  refine ⟨?_, ?_, by rfl, ?_⟩
  · intro c rs ra hne hu
    cases rs with
    | nil => exact absurd rfl hne
    | cons a as => simp [checkRole, hu]
  · intro c ps ra hne hu
    cases ps with
    | nil => exact absurd rfl hne
    | cons a as => simp [checkPermission, hu]
  · intro c ra
    exact ⟨rfl, rfl, rfl, rfl⟩

/-- C10 witness: concrete instantiations of all quantified conjuncts. -/
theorem role_permission_no_user_unauthorized_empty_passes_witness :
    checkRole Fixtures.ctxAnon (some ["admin"]) none
      = .error "Unauthorized: User not found" ∧
    checkPermission Fixtures.ctxAnon (some ["users:read"]) none
      = .error "Unauthorized: User not found" ∧
    checkRole Fixtures.ctxAnon (some []) none = .ok true ∧
    checkPermission Fixtures.ctxAnon none none = .ok true := by
  have h := role_permission_no_user_unauthorized_empty_passes
  exact ⟨h.1 Fixtures.ctxAnon ["admin"] none (by decide) rfl,
    h.2.1 Fixtures.ctxAnon ["users:read"] none (by decide) rfl,
    (h.2.2.2 Fixtures.ctxAnon none).2.1,
    (h.2.2.2 Fixtures.ctxAnon none).2.2.1⟩

/-- C4 (amended): the per-route error-translation wrapper maps a guard
throw whose message contains `Unauthorized` to a 401 whose `code` field is
always the literal `UNAUTHORIZED` (expired and malformed tokens differ
only in the message), a `Forbidden` message to 403 `FORBIDDEN`, a guard
returning `false` to 403 "Access denied", a `ZodError` to 400
`VALIDATION_ERROR` with message "Validation failed" and the structured
details, and re-throws anything else. -/
theorem route_error_translation_mapping :
    (∀ m : String, strIncludes m "Unauthorized" = true →
      guardMiddleware (.error m) = .response 401 (errBody "UNAUTHORIZED" m)) ∧
    (∀ m : String, strIncludes m "Unauthorized" = false →
      strIncludes m "Forbidden" = true →
      guardMiddleware (.error m) = .response 403 (errBody "FORBIDDEN" m)) ∧
    (∀ m : String, strIncludes m "Unauthorized" = false →
      strIncludes m "Forbidden" = false →
      guardMiddleware (.error m) = .rethrow m) ∧
    guardMiddleware (.ok false)
      = .response 403 (errBody "FORBIDDEN" "Access denied") ∧
    (∀ issues : List Json,
      handlerCatch (.zod issues)
        = .response 400
            (.obj [("status", .str "error"),
                   ("error", .obj [("code", .str "VALIDATION_ERROR"),
                                   ("message", .str "Validation failed"),
                                   ("details", .arr issues)])])) ∧
    (∀ m : String, handlerCatch (.other m) = .rethrow m) := by
  refine ⟨?_, ?_, ?_, rfl, fun _ => rfl, fun _ => rfl⟩
  · intro m h
    simp [guardMiddleware, guardCatch, h]
  · intro m h1 h2
    simp [guardMiddleware, guardCatch, h1, h2]
  · intro m h1 h2
    simp [guardMiddleware, guardCatch, h1, h2]

/-- C4 witness: concrete messages exercising each quantified conjunct of
the mapping theorem. -/
theorem route_error_translation_mapping_witness :
    guardMiddleware (.error "Unauthorized: No token provided")
      = .response 401 (errBody "UNAUTHORIZED" "Unauthorized: No token provided") ∧
    guardMiddleware (.error "Forbidden: Requires one of: admin")
      = .response 403 (errBody "FORBIDDEN" "Forbidden: Requires one of: admin") ∧
    guardMiddleware (.error "boom") = .rethrow "boom" ∧
    handlerCatch (.other "boom") = .rethrow "boom" := by
  have h := route_error_translation_mapping
  exact ⟨h.1 "Unauthorized: No token provided" (by decide),
    h.2.1 "Forbidden: Requires one of: admin" (by decide) (by decide),
    h.2.2.1 "boom" (by decide) (by decide),
    h.2.2.2.2.2 "boom"⟩

/-- C4 counterexample: an expired-token guard failure and a
malformed-token guard failure both surface with `code` `UNAUTHORIZED`
(the distinction lives only in the message), so the wrapper's `code`
field never takes the values `TOKEN_EXPIRED` or `INVALID_TOKEN`. -/
theorem route_error_translation_counterexample :
    guardMiddleware (executeGuards Fixtures.ctxExpired [Fixtures.authGuardMeta])
      = .response 401 (errBody "UNAUTHORIZED" "Unauthorized: Token has expired") ∧
    guardMiddleware (executeGuards Fixtures.ctxMalformed [Fixtures.authGuardMeta])
      = .response 401 (errBody "UNAUTHORIZED" "Unauthorized: Invalid token") ∧
    bodyCode (errBody "UNAUTHORIZED" "Unauthorized: Token has expired")
      = some "UNAUTHORIZED" ∧
    ("UNAUTHORIZED" : String) ≠ "TOKEN_EXPIRED" ∧
    ("UNAUTHORIZED" : String) ≠ "INVALID_TOKEN" := by
  refine ⟨rfl, rfl, rfl, by decide, by decide⟩

namespace Fixtures

/-- Handler metadata with nothing declared. -/
def handlerMetaDefault : HandlerMeta := ⟨false, none, [], [], []⟩

/-- A route available on every platform. -/
def routeAll : RouteMeta := ⟨"get", "/", "list", .all, false⟩

/-- A route restricted to the mobile platform. -/
def routeMobile : RouteMeta := ⟨"get", "/m", "listMobile", .mobile, false⟩

/-- A decorated controller with one `all` route and one `mobile` route. -/
def sampleController : ControllerClass :=
  ⟨some "/web/v1/users", some [routeAll, routeMobile], [],
    fun _ => handlerMetaDefault⟩

/-- Handler metadata for a `@Public` handler that still declares a rate
limit, a method middleware and a guard. -/
def publicHandlerMeta : HandlerMeta :=
  ⟨true, some ⟨100, 60000⟩, ["log"], [authGuardMeta], []⟩

/-- A controller with a class middleware whose handlers are all public. -/
def publicController : ControllerClass :=
  ⟨some "/api", some [routeAll], ["cors"], fun _ => publicHandlerMeta⟩

end Fixtures

/-- C2: when `build` is called with a platform argument, a route is
registered if and only if it occurs in the controller's route list and its
platform filter is `all` or equals that platform; in particular a
`mobile`-only route built for `web` yields no registration at all. -/
theorem build_platform_filter :
    ∀ (cls : ControllerClass) (bp : String) (routes : List RouteMeta)
      (p : Platform) (r : RouteMeta),
      cls.basePath = some bp → cls.routes = some routes →
      ((∃ reg ∈ build cls (some p), reg.route = r) ↔
        (r ∈ routes ∧ (r.platform = .all ∨ r.platform = p.toRoute))) := by
  intro cls bp routes p r hbp hr
  simp only [build, hbp, hr]
  constructor
  · rintro ⟨reg, hmem, hroute⟩
    obtain ⟨r', hr', hreg⟩ := List.mem_map.mp hmem
    obtain ⟨hmem', hpred⟩ := List.mem_filter.mp hr'
    have : r' = r := by
      have : reg.route = r' := by rw [← hreg]; rfl
      rw [← hroute, this]
    subst this
    exact ⟨hmem', by simpa using hpred⟩
  · rintro ⟨hmem, hpred⟩
    refine ⟨registerRoute cls bp r, List.mem_map.mpr
      ⟨r, List.mem_filter.mpr ⟨hmem, by simpa using hpred⟩, rfl⟩, rfl⟩

/-- C2 witness: a controller with one `all` route and one `mobile` route,
built for `web`: the first is registered, the second is not. -/
theorem build_platform_filter_witness :
    (∃ reg ∈ build Fixtures.sampleController (some .web),
      reg.route = Fixtures.routeAll) ∧
    ¬ (∃ reg ∈ build Fixtures.sampleController (some .web),
      reg.route = Fixtures.routeMobile) := by
  constructor
  · exact (build_platform_filter Fixtures.sampleController "/web/v1/users"
      [Fixtures.routeAll, Fixtures.routeMobile] .web Fixtures.routeAll
      rfl rfl).mpr ⟨by simp, Or.inl rfl⟩
  · intro h
    have := (build_platform_filter Fixtures.sampleController "/web/v1/users"
      [Fixtures.routeAll, Fixtures.routeMobile] .web Fixtures.routeMobile
      rfl rfl).mp h
    have h2 := this.2
    simp [Fixtures.routeMobile, Platform.toRoute] at h2

/-- C9: when a handler is marked `@Public`, the compiled chain contains no
class-level and no method-level middleware items at all, while the rate
limiter (if declared) and the guard middleware (if guards are declared)
are still attached. -/
theorem public_route_strips_class_method_middlewares :
    ∀ (cls : ControllerClass) (bp : String) (r : RouteMeta),
      (cls.handlers r.handlerName).isPublic = true →
      (∀ n, ChainItem.classMw n ∉ (registerRoute cls bp r).chain) ∧
      (∀ n, ChainItem.methodMw n ∉ (registerRoute cls bp r).chain) ∧
      (∀ m, (cls.handlers r.handlerName).rateLimit = some m →
        ChainItem.rateLimiter m ∈ (registerRoute cls bp r).chain) ∧
      ((cls.handlers r.handlerName).guards ≠ [] →
        ChainItem.guardMw (cls.handlers r.handlerName).guards
          ∈ (registerRoute cls bp r).chain) := by
  intro cls bp r hpub
  refine ⟨?_, ?_, ?_, ?_⟩
  · intro n
    simp [registerRoute, hpub]
    rcases (cls.handlers r.handlerName).rateLimit with _ | m <;>
      rcases hg : (cls.handlers r.handlerName).guards.isEmpty <;> simp [hg]
  · intro n
    simp [registerRoute, hpub]
    rcases (cls.handlers r.handlerName).rateLimit with _ | m <;>
      rcases hg : (cls.handlers r.handlerName).guards.isEmpty <;> simp [hg]
  · intro m hm
    simp [registerRoute, hpub, hm]
  · intro hg
    have : (cls.handlers r.handlerName).guards.isEmpty = false := by
      cases h : (cls.handlers r.handlerName).guards with
      | nil => exact absurd h hg
      | cons a as => rfl
    simp [registerRoute, hpub, this]

/-- C9 witness: a public handler with a declared rate limit, method
middleware, class middleware and guard: both middleware kinds are absent
from the chain while the rate limiter and the guard middleware remain. -/
theorem public_route_strips_class_method_middlewares_witness :
    ChainItem.classMw "cors"
      ∉ (registerRoute Fixtures.publicController "/api" Fixtures.routeAll).chain ∧
    ChainItem.methodMw "log"
      ∉ (registerRoute Fixtures.publicController "/api" Fixtures.routeAll).chain ∧
    ChainItem.rateLimiter ⟨100, 60000⟩
      ∈ (registerRoute Fixtures.publicController "/api" Fixtures.routeAll).chain ∧
    ChainItem.guardMw [Fixtures.authGuardMeta]
      ∈ (registerRoute Fixtures.publicController "/api" Fixtures.routeAll).chain := by
  have h := public_route_strips_class_method_middlewares
    Fixtures.publicController "/api" Fixtures.routeAll rfl
  exact ⟨h.1 "cors", h.2.1 "log", h.2.2.1 ⟨100, 60000⟩ rfl,
    h.2.2.2 (by decide)⟩

namespace Fixtures

/-- Request context with a parsed body and no captures, with `userRead`
authenticated. -/
def gapReqCtx : ReqCtx := ⟨.ok (.json .null), [], [], [], some userRead⟩

/-- A single `@User()` descriptor at position 1: position 0 belongs to no
descriptor. -/
def gapParams : List ParamMeta := [⟨.user, 1, none, none⟩]

/-- Request context whose query string is `?foo=1&bar=2`. -/
def queryCtx : ReqCtx :=
  ⟨.ok (.json .null), [], [("foo", "1"), ("bar", "2")], [], none⟩

end Fixtures

/-- Every descriptor without a validation schema resolves successfully
(given a parseable body): no extraction step of `resolveParameters` can
throw. -/
theorem resolveValue_ok_of_no_schema (c : ReqCtx) (p : ParamMeta) (bv : Value)
    (hb : c.bodyJson = .ok bv) (hs : p.schema = none) :
    ∃ v, resolveValue c p = .ok v := by
  obtain ⟨t, i, n, sch⟩ := p
  simp only at hs
  subst hs
  cases t with
  | body => exact ⟨bv, by simp [resolveValue, hb]⟩
  | param => cases n <;> exact ⟨_, rfl⟩
  | query => exact ⟨_, rfl⟩
  | headers => cases n <;> exact ⟨_, rfl⟩
  | user =>
    cases hu : c.user with
    | none => exact ⟨.undefined, by simp [resolveValue, hu]⟩
    | some u => exact ⟨.userVal u, by simp [resolveValue, hu]⟩
  | req => exact ⟨_, rfl⟩
  | res => exact ⟨_, rfl⟩
  | next => exact ⟨_, rfl⟩

/-- The resolution loop over schema-free descriptors always returns an
array of the same length as its accumulator, leaving every position that
no descriptor's index names untouched. -/
theorem resolveLoop_ok_of_no_schema (c : ReqCtx) (bv : Value)
    (hb : c.bodyJson = .ok bv) :
    ∀ (l : List ParamMeta) (acc : List Value),
      (∀ p ∈ l, p.schema = none) →
      ∃ args, resolveLoop c l acc = .ok args ∧
        args.length = acc.length ∧
        (∀ j, (∀ p ∈ l, p.index ≠ j) → args[j]? = acc[j]?) := by
  intro l
  induction l with
  | nil => exact fun acc _ => ⟨acc, rfl, rfl, fun _ _ => rfl⟩
  | cons p ps ih =>
    intro acc hsch
    obtain ⟨v, hv⟩ := resolveValue_ok_of_no_schema c p bv hb
      (hsch p (by simp))
    obtain ⟨args, hloop, hlen, hidx⟩ := ih (acc.set p.index v)
      (fun q hq => hsch q (by simp [hq]))
    refine ⟨args, ?_, ?_, ?_⟩
    · simp only [resolveLoop, hv]
      exact hloop
    · rw [hlen, List.length_set]
    · intro j hj
      rw [hidx j (fun q hq => hj q (by simp [hq]))]
      exact List.getElem?_set_ne (hj p (by simp))

/-- C7 (amended): the resolver enforces neither uniqueness nor contiguity
of `positionalIndex` values and never fails fast on a gap: for
schema-free descriptors (and a parseable body) it always succeeds,
producing an array of length max-index+1 whose positions named by no
descriptor hold `undefined`. -/
theorem resolver_ignores_index_gaps :
    ∀ (params : List ParamMeta) (c : ReqCtx) (bv : Value),
      c.bodyJson = .ok bv →
      (∀ p ∈ params, p.schema = none) →
      ∃ args, resolveParameters params c = .ok args ∧
        args.length = argsLength params ∧
        (∀ j, j < argsLength params → (∀ p ∈ params, p.index ≠ j) →
          args[j]? = some Value.undefined) := by
  intro params c bv hb hsch
  have hmem : ∀ p, p ∈ List.insertionSort
      (fun a b => a.index ≤ b.index) params ↔ p ∈ params :=
    fun p => (List.perm_insertionSort _ _).mem_iff
  obtain ⟨args, hloop, hlen, hidx⟩ := resolveLoop_ok_of_no_schema c bv hb
    (List.insertionSort (fun a b => a.index ≤ b.index) params)
    (List.replicate (argsLength params) Value.undefined)
    (fun p hp => hsch p ((hmem p).mp hp))
  refine ⟨args, hloop, by simpa using hlen, ?_⟩
  intro j hj hnone
  rw [hidx j (fun p hp => hnone p ((hmem p).mp hp))]
  simp [hj]

/-- C7 amended-claim witness: the gap fixture instantiating the theorem. -/
theorem resolver_ignores_index_gaps_witness :
    ∃ args, resolveParameters Fixtures.gapParams Fixtures.gapReqCtx
        = .ok args ∧
      args.length = argsLength Fixtures.gapParams ∧
      (∀ j, j < argsLength Fixtures.gapParams →
        (∀ p ∈ Fixtures.gapParams, p.index ≠ j) →
        args[j]? = some Value.undefined) :=
  resolver_ignores_index_gaps Fixtures.gapParams Fixtures.gapReqCtx
    (.json .null) rfl (by simp [Fixtures.gapParams])

/-- C7 counterexample: with a descriptor at position 1 and none at
position 0, the resolver returns an argument array (with `undefined` at
the gap) instead of raising an error. -/
theorem resolver_gap_no_error_counterexample :
    resolveParameters Fixtures.gapParams Fixtures.gapReqCtx
      = .ok [Value.undefined, Value.userVal Fixtures.userRead] ∧
    ∀ e, resolveParameters Fixtures.gapParams Fixtures.gapReqCtx
      ≠ .error e := by
  have h1 : resolveParameters Fixtures.gapParams Fixtures.gapReqCtx
      = .ok [Value.undefined, Value.userVal Fixtures.userRead] := rfl
  exact ⟨h1, fun e h => by rw [h1] at h; exact Except.noConfusion h⟩

/-- C8 (amended): header-sourced and path-param-sourced descriptors
extract the single named capture when a name is declared and the whole
collection otherwise, but query-sourced descriptors always receive the
entire query object — the declared name is ignored, and a schema (when
present) is applied to the whole object. -/
theorem named_capture_extraction :
    (∀ (c : ReqCtx) (i : Nat) (nm : Option String),
      resolveValue c ⟨.query, i, nm, none⟩ = .ok (.strMap c.queryParams)) ∧
    (∀ (c : ReqCtx) (i : Nat) (nm : Option String)
        (f : Value → Except (List Json) Value),
      resolveValue c ⟨.query, i, nm, some f⟩
        = (f (.strMap c.queryParams)).mapError .zod) ∧
    (∀ (c : ReqCtx) (i : Nat) (n : String)
        (sch : Option (Value → Except (List Json) Value)),
      resolveValue c ⟨.headers, i, some n, sch⟩
        = .ok (lookupCapture c.headers n)) ∧
    (∀ (c : ReqCtx) (i : Nat)
        (sch : Option (Value → Except (List Json) Value)),
      resolveValue c ⟨.headers, i, none, sch⟩ = .ok (.strMap c.headers)) ∧
    (∀ (c : ReqCtx) (i : Nat) (n : String),
      resolveValue c ⟨.param, i, some n, none⟩
        = .ok (lookupCapture c.pathParams n)) ∧
    (∀ (c : ReqCtx) (i : Nat),
      resolveValue c ⟨.param, i, none, none⟩ = .ok (.strMap c.pathParams)) :=
  ⟨fun _ _ _ => rfl, fun _ _ _ _ => rfl, fun _ _ _ _ => rfl,
    fun _ _ _ => rfl, fun _ _ _ => rfl, fun _ _ => rfl⟩

/-- C8 counterexample: a `@Query('foo')` descriptor against the query
`?foo=1&bar=2` yields the whole query object, not the value of `foo`. -/
theorem query_name_ignored_counterexample :
    resolveParameters [⟨.query, 0, some "foo", none⟩] Fixtures.queryCtx
      = .ok [Value.strMap [("foo", "1"), ("bar", "2")]] ∧
    Value.strMap [("foo", "1"), ("bar", "2")] ≠ Value.str "1" :=
  ⟨rfl, fun h => Value.noConfusion h⟩

namespace Fixtures

/-- Reflection environment with the dependency cycle `A → B → A` and no
singleton marks. -/
def envCycleAB : DI.DIEnv :=
  ⟨fun n => if n = "A" then ["B"] else if n = "B" then ["A"] else [],
   fun _ => false⟩

/-- A container with no registrations. -/
def emptyDI : DI.DIState := ⟨[], []⟩

end Fixtures

/-- On the cycle `A → B → A` with no registrations, the minimal container
at `src/core/container.ts` never finishes, whatever recursion depth it is
granted: its `resolve` has no cycle detection. -/
theorem simple_resolve_cycle_never_finishes :
    ∀ fuel,
      DISimple.resolve Fixtures.envCycleAB fuel Fixtures.emptyDI "A" = none ∧
      DISimple.resolve Fixtures.envCycleAB fuel Fixtures.emptyDI "B" = none := by
  intro fuel
  induction fuel using Nat.strong_induction_on with
  | _ n ih =>
    match n with
    | 0 => exact ⟨rfl, rfl⟩
    | 1 => exact ⟨rfl, rfl⟩
    | m + 2 =>
      obtain ⟨hA, hB⟩ := ih m (by omega)
      constructor
      · have e1 : DISimple.resolve Fixtures.envCycleAB (m + 2)
            Fixtures.emptyDI "A"
            = (match DISimple.resolveDeps Fixtures.envCycleAB (m + 1)
                  Fixtures.emptyDI ["B"] with
               | none => none
               | some (args, st') => some (DI.Obj.mk "A" args, st')) := rfl
        have e2 : DISimple.resolveDeps Fixtures.envCycleAB (m + 1)
            Fixtures.emptyDI ["B"]
            = (match DISimple.resolve Fixtures.envCycleAB m
                  Fixtures.emptyDI "B" with
               | none => none
               | some (o, st') =>
                 match DISimple.resolveDeps Fixtures.envCycleAB m st' [] with
                 | none => none
                 | some (os, st'') => some (o :: os, st'')) := rfl
        rw [e1, e2, hB]
      · have e1 : DISimple.resolve Fixtures.envCycleAB (m + 2)
            Fixtures.emptyDI "B"
            = (match DISimple.resolveDeps Fixtures.envCycleAB (m + 1)
                  Fixtures.emptyDI ["A"] with
               | none => none
               | some (args, st') => some (DI.Obj.mk "B" args, st')) := rfl
        have e2 : DISimple.resolveDeps Fixtures.envCycleAB (m + 1)
            Fixtures.emptyDI ["A"]
            = (match DISimple.resolve Fixtures.envCycleAB m
                  Fixtures.emptyDI "A" with
               | none => none
               | some (o, st') =>
                 match DISimple.resolveDeps Fixtures.envCycleAB m st' [] with
                 | none => none
                 | some (os, st'') => some (o :: os, st'')) := rfl
        rw [e1, e2, hA]

/-- C1: resolving `A` in the cycle `A → B → A` on the enhanced container
does detect the cycle — the internal chain is exactly `A -> B -> A` — but
the error the top-level `resolve` throws is a `DependencyResolutionError`
produced by the per-dependency wrapping, not the `CircularDependencyError`
the claim (and the container's own `@throws` documentation) promises;
the minimal container at `src/core/container.ts` instead recurses without
bound on the same input. -/
theorem resolve_cycle_throws_wrapped_error :
    DI.resolve Fixtures.envCycleAB 10 Fixtures.emptyDI [] "A"
      = some (.error (.depResolution "B"
          "Failed to resolve dependency at index 0 for A: Failed to resolve dependency at index 0 for B: Circular dependency detected: A -> B -> A"))
    ∧ (∀ chain, DI.resolve Fixtures.envCycleAB 10 Fixtures.emptyDI [] "A"
        ≠ some (.error (.circular chain)))
    ∧ (∀ fuel,
        DISimple.resolve Fixtures.envCycleAB fuel Fixtures.emptyDI "A"
          = none) := by
  have h1 : DI.resolve Fixtures.envCycleAB 10 Fixtures.emptyDI [] "A"
      = some (.error (.depResolution "B"
          "Failed to resolve dependency at index 0 for A: Failed to resolve dependency at index 0 for B: Circular dependency detected: A -> B -> A")) := by
    rfl
  refine ⟨h1, ?_, fun fuel => (simple_resolve_cycle_never_finishes fuel).1⟩
  intro chain h
  rw [h1] at h
  simp at h
